import Mathlib

/-!
# Verification of the vedha-pocket-api agentic RAG pipeline

Shallow embedding of the streaming ask route (`src/routes/ask-stream.ts`) of
the `vedha-pocket-api` repository, together with proofs and refutations of the
specification's claims about it.

Modelling conventions:
* JavaScript numbers carrying similarity scores are modelled as `ℚ`
  (the spec reads scores "within floating rounding"; rationals make the
  algebra exact).
* A JavaScript `Map` is modelled as a list of entries in insertion order with
  in-place update on key collision (`insertChunk`), which is exactly the
  observable behaviour of `Map.set` / `Map.get` / `Map.values()`.
* `undefined` / empty-string falsiness of optional string fields is modelled
  by the empty string (`""`).
* External collaborators (LLM router, rewriter, grader, embedding and search
  services) live in the `@vedha/shared` package outside this repository's
  `src/`; the orchestrator consumes only their *results*, so those results are
  inputs (an `Oracle`) to the pipeline model, exactly as the route code
  receives them from awaited calls.
-/

namespace Vedha

/-- A chunk row as returned by the `hybrid_search` RPC for one query
(fields read by `multiQuerySearch` and the source-mapping step). -/
structure Chunk where
  id : String
  source_id : String
  source_title : String
  page : Option Nat
  text : String
  similarity : ℚ
deriving DecidableEq

/-- An entry of the `allResults` map in `multiQuerySearch`: the spread
`{ ...chunk, queryCount: 1 }`, whose `similarity` field is later mutated. -/
structure MergedChunk where
  chunk : Chunk
  queryCount : Nat
deriving DecidableEq

/-- Body of the per-chunk loop in `multiQuerySearch` (ask-stream.ts:175-184):
on a repeat chunk id, `existing.similarity = (existing.similarity +
chunk.similarity) / 2` and `queryCount` increments; otherwise the chunk is
inserted at the end of the map with `queryCount = 1`.  The first matching
entry is updated in place, as `Map.set` does. -/
def insertChunk : List MergedChunk → Chunk → List MergedChunk
  | [], c => [⟨c, 1⟩]
  | e :: rest, c =>
    if e.chunk.id = c.id then
      ⟨{ e.chunk with similarity := (e.chunk.similarity + c.similarity) / 2 },
        e.queryCount + 1⟩ :: rest
    else
      e :: insertChunk rest c

/-- The `allResults` map after the outer loop over all per-query result lists
(ask-stream.ts:157-185).  `perQuery` is the list of `hybrid_search` result
lists, one per search query, in query order (a query whose search failed is
skipped by the code and contributes no list). -/
def mergeResults (perQuery : List (List Chunk)) : List MergedChunk :=
  perQuery.foldl (fun m chunks => chunks.foldl insertChunk m) []

/-- Stable insertion for descending sort by similarity: a new element is
placed after every element of greater or equal similarity, which is the
observable behaviour of the stable `Array.prototype.sort` with comparator
`(a, b) => b.similarity - a.similarity`. -/
def insertDesc (x : MergedChunk) : List MergedChunk → List MergedChunk
  | [] => [x]
  | y :: ys =>
    if x.chunk.similarity ≤ y.chunk.similarity then y :: insertDesc x ys
    else x :: y :: ys

/-- Stable descending sort by similarity (ask-stream.ts:189). -/
def sortBySimilarityDesc (l : List MergedChunk) : List MergedChunk :=
  l.foldl (fun acc x => insertDesc x acc) []

/-- `multiQuerySearch` (ask-stream.ts:142-193) with the network layer
abstracted away: given the per-query `hybrid_search` results, merge by chunk
id with score aggregation, sort descending by similarity (stable) and
truncate to `chunkCount`. -/
def multiQuerySearch (chunkCount : Nat) (perQuery : List (List Chunk)) :
    List MergedChunk :=
  (sortBySimilarityDesc (mergeResults perQuery)).take chunkCount

/-- `allResults.get k`: first (and, by construction, only) entry with the
given chunk id. -/
def findEntry (k : String) (m : List MergedChunk) : Option MergedChunk :=
  m.find? (fun e => e.chunk.id == k)

/-- The effect of one hit of chunk `c` on the map entry for `c.id`:
first hit inserts `⟨c, 1⟩`, a repeat hit averages the similarity pairwise and
increments `queryCount`. -/
def applyHit (o : Option MergedChunk) (c : Chunk) : Option MergedChunk :=
  match o with
  | none => some ⟨c, 1⟩
  | some e =>
      some ⟨{ e.chunk with similarity := (e.chunk.similarity + c.similarity) / 2 },
        e.queryCount + 1⟩

/-- The running pairwise average the code actually computes:
`a₁ = s₁`, `aᵢ₊₁ = (aᵢ + sᵢ₊₁) / 2`. -/
def runningAverage (s : ℚ) (rest : List ℚ) : ℚ :=
  rest.foldl (fun a b => (a + b) / 2) s

/-- A row of the `messages` table as selected for conversation history
(`select('role, content')`, ask-stream.ts:419-431). -/
structure ConvMessage where
  role : String
  content : String
deriving DecidableEq

/-- The conversation-history fetch (ask-stream.ts:417-432): performed only
when the request carries a `conversation_id`; the Supabase query orders the
conversation's messages by `created_at` *ascending* and applies `limit(10)`,
so it returns the **first** ten messages in chronological order.
`messages` is the full list of the conversation's messages in `created_at`
ascending order. -/
def fetchConversationHistory (conversationIdProvided : Bool)
    (messages : List ConvMessage) : List ConvMessage :=
  if conversationIdProvided then messages.take 10 else []

/-- The most-recent `n` entries of a chronologically ascending list
(what the spec means by "bounded to the last 10"). -/
def lastN (n : Nat) (l : List ConvMessage) : List ConvMessage :=
  l.drop (l.length - n)

/-- `generateSearchQueriesStream` (ask-stream.ts:53-136) with the streaming
LLM call abstracted to its parsed outcome.  `llmArray = some qs` models a 2xx
response whose accumulated content contained a bracketed JSON array that
parsed to the string list `qs`; `llmArray = none` models a non-2xx response,
a missing bracketed array, or a `JSON.parse` failure (all of which make the
function return `[originalQuery]`).  On success the code returns
`[originalQuery, ...queries.slice(0, queryCount)]` — note: no
deduplication is performed. -/
def generateSearchQueries (originalQuery : String) (queryCount : Nat)
    (llmArray : Option (List String)) : List String :=
  match llmArray with
  | some queries => originalQuery :: queries.take queryCount
  | none => [originalQuery]

/-- The observable behaviour of one generation attempt against one model:
the `content` deltas streamed (and forwarded as `token` events) before the
attempt either completes or throws.  `failed = true` covers a non-2xx
response (`throw` before any token) as well as a mid-stream transport error
(tokens already yielded). -/
structure AttemptOutcome where
  tokens : List String
  failed : Bool

/-- Result of `streamChatCompletion`: the token event payloads emitted (in
order, across all attempts), the attempts actually made as
`(attempt counter, model)` pairs, and `some (answer, model)` on success or
`none` when the failure propagates to the orchestrator. -/
structure GenOutcome where
  events : List String
  calls : List (Nat × String)
  result : Option (String × String)

/-- `const maxAttempts = 2` (ask-stream.ts:234). -/
def maxAttempts : Nat := 2

/-- The retry/fallback loop of `streamChatCompletion`
(ask-stream.ts:236-309).  `fuel = maxAttempts - attempt` makes the loop guard
`attempt < maxAttempts` structural: `fuel = 0` is the loop exiting and
reaching `throw new Error('All chat completion attempts failed')`.  Each
iteration runs the attempt: on success it returns the concatenated deltas
(`fullAnswer`, reset to `''` at the start of every attempt) and the model
used; on failure, if `attempt === 0 && fallbackModel && fallbackModel !==
currentModel` it switches to the fallback model, increments the counter and
retries, otherwise it rethrows. -/
def runAttemptsGo (behavior : Nat → String → AttemptOutcome)
    (fallbackModel : String) : Nat → Nat → String → GenOutcome
  | 0, _, _ => ⟨[], [], none⟩
  | fuel + 1, attempt, currentModel =>
    let out := behavior attempt currentModel
    if out.failed then
      if attempt = 0 ∧ fallbackModel ≠ "" ∧ fallbackModel ≠ currentModel then
        let rest := runAttemptsGo behavior fallbackModel fuel (attempt + 1) fallbackModel
        ⟨out.tokens ++ rest.events, (attempt, currentModel) :: rest.calls, rest.result⟩
      else
        ⟨out.tokens, [(attempt, currentModel)], none⟩
    else
      ⟨out.tokens, [(attempt, currentModel)], some (String.join out.tokens, currentModel)⟩

/-- `streamChatCompletion` (ask-stream.ts:198-310): attempt counter starts at
0 with the primary model.  `behavior attempt model` is the outcome of the
network call made at that attempt with that model. -/
def streamChatCompletion (behavior : Nat → String → AttemptOutcome)
    (model fallbackModel : String) : GenOutcome :=
  runAttemptsGo behavior fallbackModel maxAttempts 0 model

/-- A prepared source (ask-stream.ts:619-625): the per-chunk record the
generator and the citation extractor consume. -/
structure Source where
  id : String
  source_id : String
  title : String
  page : Option Nat
  text : String
deriving DecidableEq

/-- A `Citation` as built by `extractCitations` (ask-stream.ts:328-334). -/
structure Citation where
  chunk_id : String
  source_id : String
  title : String
  page : Option Nat
  snippet : String
deriving DecidableEq

/-- JS `source.title || 'Untitled'`: the empty string is falsy. -/
def jsTitle (t : String) : String :=
  if t = "" then "Untitled" else t

/-- JS `source.page || null`: both `undefined` and `0` are falsy. -/
def jsOrNull (p : Option Nat) : Option Nat :=
  match p with
  | some n => if n = 0 then none else some n
  | none => none

/-- JS `source.text.substring(0, 200)`: the first (at most) 200 characters. -/
def jsSubstring200 (s : String) : String :=
  String.mk (s.data.take 200)

/-- The citation built for a retained source index (ask-stream.ts:328-334);
note the snippet is `substring(0, 200) + '...'`. -/
def mkCitation (s : Source) : Citation :=
  ⟨s.id, s.source_id, jsTitle s.title, jsOrNull s.page, jsSubstring200 s.text ++ "..."⟩

/-- JS regex `\s` (the characters relevant to this codebase; the full JS
class also contains Unicode spaces, which never change any claim here). -/
def jsSpace (c : Char) : Bool :=
  c = ' ' || c = '\t' || c = '\n' || c = '\r' || c = Char.ofNat 11 || c = Char.ofNat 12

/-- The literal word of the marker pattern, lower-cased (`i` flag). -/
def sourceWord : List Char := ['s', 'o', 'u', 'r', 'c', 'e']

/-- Case-insensitive literal match of `w` at the head of `cs`, returning the
remainder on success. -/
def matchTokenCI : List Char → List Char → Option (List Char)
  | [], cs => some cs
  | _ :: _, [] => none
  | w :: ws, c :: cs => if c.toLower = w then matchTokenCI ws cs else none

/-- `parseInt(digits, 10)` on a non-empty digit string. -/
def digitsToNat (ds : List Char) : Nat :=
  ds.foldl (fun n c => n * 10 + (c.toNat - '0'.toNat)) 0

/-- One anchored attempt of the regex `\[Source\s*(\d+)\]` (case-insensitive)
at the head of `l`: on success returns the captured number and the input
after the `]`.  Greedy `\s*` / `\d+` need no backtracking here because a
whitespace character is never a digit and a digit is never `]`. -/
def matchAt (l : List Char) : Option (Nat × List Char) :=
  match l with
  | [] => none
  | c :: cs =>
    if c = '[' then
      match matchTokenCI sourceWord cs with
      | none => none
      | some r1 =>
        let r2 := r1.dropWhile jsSpace
        let ds := r2.takeWhile Char.isDigit
        let r3 := r2.dropWhile Char.isDigit
        match r3 with
        | ']' :: r4 => if ds.isEmpty then none else some (digitsToNat ds, r4)
        | _ => none
    else none

/-- The scan loop of `citationPattern.exec` with the `g` flag: leftmost,
non-overlapping matches, resuming after each match.  `fuel` bounds the
recursion; every step consumes at least one character (`matchAt_length`
below), so `fuel = l.length` never runs out. -/
def scanGo (fuel : Nat) (l : List Char) : List Nat :=
  match fuel with
  | 0 => []
  | fuel + 1 =>
    match matchAt l with
    | some x => x.1 :: scanGo fuel x.2
    | none =>
      match l with
      | [] => []
      | _ :: cs => scanGo fuel cs

/-- All captured numbers of `/\[Source\s*(\d+)\]/gi` over `l`, in match
order (ask-stream.ts:320-323). -/
def scanMarkers (l : List Char) : List Nat :=
  scanGo l.length l

/-- The body of the `while ((match = citationPattern.exec(answer)))` loop
(ask-stream.ts:323-336).  For a captured number `n`, the code computes
`sourceIndex = parseInt(n) - 1` as a JS integer and keeps the marker iff
`sourceIndex >= 0 && sourceIndex < sources.length &&
!citedSources.has(sourceIndex)`; over `Nat` the first conjunct is `1 ≤ n`
(only `n = 0` yields a negative JS index).  `cited` is the `citedSources`
set, which only ever receives in-range indices. -/
def citeLoop (sources : List Source) : List Nat → List Nat → List Citation
  | [], _ => []
  | n :: rest, cited =>
    if h : 1 ≤ n ∧ n - 1 < sources.length ∧ (n - 1) ∉ cited then
      mkCitation (sources.get ⟨n - 1, h.2.1⟩) :: citeLoop sources rest ((n - 1) :: cited)
    else
      citeLoop sources rest cited

/-- `extractCitations` (ask-stream.ts:315-339). -/
def extractCitations (answer : String) (sources : List Source) : List Citation :=
  citeLoop sources (scanMarkers answer.data) []

/-- Keep the first occurrence of every value, in order (spec-side
combinator, used to state what the extraction loop does). -/
def dedupKeepFirstGo (seen : List Nat) : List Nat → List Nat
  | [] => []
  | n :: rest =>
    if n ∈ seen then dedupKeepFirstGo seen rest
    else n :: dedupKeepFirstGo (n :: seen) rest

/-- Spec-side description of citation extraction: the 0-based indices of all
in-range markers, first occurrence winning. -/
def specCitedIndices (answer : String) (sources : List Source) : List Nat :=
  dedupKeepFirstGo []
    ((scanMarkers answer.data).filterMap
      (fun n => if 1 ≤ n ∧ n - 1 < sources.length then some (n - 1) else none))

/-- Spec-side description of citation extraction: retained indices mapped to
their sources' citations. -/
def specCitations (answer : String) (sources : List Source) : List Citation :=
  (specCitedIndices answer sources).filterMap
    (fun i => (sources.get? i).map mkCitation)

/-- `RouterResult` as consumed by the orchestrator.  `suggestedResponse` is
an optional string field; the empty string models `undefined` (both are
falsy where the code tests `routerResult.suggestedResponse`). -/
structure RouterResult where
  intent : String
  skipRetrieval : Bool
  suggestedResponse : String

/-- Result of `rewriteQueryWithContext` as consumed by the orchestrator. -/
structure RewriteResult where
  rewritten : String
  needsContext : Bool

/-- Result of `gradeChunksRelevance` as consumed by the orchestrator. -/
structure CRAGResult where
  decision : String
  relevantChunks : List MergedChunk

/-- Result of `gradeAnswer` as consumed by the orchestrator (only
`shouldRetry` drives control flow). -/
structure AnswerGrade where
  shouldRetry : Bool

/-- The results of all external collaborator calls a single request can
make; the orchestrator (`runPipeline`) is a pure function of these.
`searchResults q` is the `hybrid_search` row list for query `q`;
`genBehavior round attempt model` is the generation outcome in reflective
round `round` (0 = first pass, 1 = regeneration) at the given retry attempt
with the given model. -/
structure Oracle where
  router : RouterResult
  rewrite : RewriteResult
  expansionQueries : Nat
  chunkCount : Nat
  expansion : Option (List String)
  searchResults : String → List Chunk
  crag : CRAGResult
  grade : AnswerGrade
  genBehavior : Nat → Nat → String → AttemptOutcome
  primaryModel : String
  fallbackModel : String

/-- SSE events, with payloads kept only where a claim mentions them
(`rewriting`/`sources`/`reflection` payloads and the `thinking` events
forwarded from providers are elided — no claim concerns them). -/
inductive Event where
  | status (msg : String)
  | routing (intent : String)
  | rewriting
  | queries (qs : List String)
  | sources
  | grading (decision : String)
  | token (t : String)
  | reflection
  | done (answer : String) (citations : List Citation)
  | error (msg : String)
deriving DecidableEq

/-- Observable outcome of one request, past the admission steps: the SSE
events emitted in order, the assistant message content persisted to the
`messages` table (if any), and how many times each external stage was
invoked. -/
structure PipelineResult where
  events : List Event
  persistedAssistant : Option String
  retrievalCalls : Nat
  cragCalls : Nat
  genCalls : Nat
  reflectionCalls : Nat

/-- Result of the self-reflective generation loop. -/
structure LoopResult where
  events : List Event
  result : Option (String × String)
  genCalls : Nat
  reflectionCalls : Nat

/-- `const MAX_ANSWER_RETRIES = 1` (ask-stream.ts:23). -/
def maxAnswerRetries : Nat := 1

/-- One reflective round's call to `streamChatCompletion`
(ask-stream.ts:641-648). -/
def roundGen (o : Oracle) (round : Nat) : GenOutcome :=
  streamChatCompletion (o.genBehavior round) o.primaryModel o.fallbackModel

/-- The self-reflective RAG loop (ask-stream.ts:640-694), `while (retryCount
<= MAX_ANSWER_RETRIES)` with `fuel = maxAnswerRetries + 1 - retryCount`
making the guard structural (`fuel = 0` is the guard failing).  Each round
streams a full generation; a thrown generation error propagates to the outer
catch (`result = none`).  After a successful round, only when `retryCount ===
0 && answer.length > 50` is `gradeAnswer` called (one `reflection` event);
if the grade says retry and `retryCount < MAX_ANSWER_RETRIES`, the loop
regenerates once; otherwise it breaks with the current answer. -/
def loopGo (o : Oracle) : Nat → Nat → LoopResult
  | 0, _ => ⟨[], some ("", ""), 0, 0⟩
  | fuel + 1, retryCount =>
    let g := roundGen o retryCount
    let tokenEvents := g.events.map Event.token
    match g.result with
    | none => ⟨tokenEvents, none, 1, 0⟩
    | some (answer, model) =>
      if retryCount = 0 ∧ answer.length > 50 then
        let reflEvents := [Event.status "Verifying answer quality...", Event.reflection]
        if o.grade.shouldRetry = true ∧ retryCount < maxAnswerRetries then
          let rest := loopGo o fuel (retryCount + 1)
          ⟨tokenEvents ++ reflEvents ++
              [Event.status "Answer quality low, regenerating..."] ++ rest.events,
            rest.result, 1 + rest.genCalls, 1 + rest.reflectionCalls⟩
        else
          ⟨tokenEvents ++ reflEvents, some (answer, model), 1, 1⟩
      else
        ⟨tokenEvents, some (answer, model), 1, 0⟩

/-- The effective query (ask-stream.ts:491-515): rewritten only when history
is non-empty, the rewriter says context was needed, and the rewrite differs
from the original. -/
def effectiveQueryOf (o : Oracle) (query : String) (history : List ConvMessage) : String :=
  if history ≠ [] ∧ o.rewrite.needsContext = true ∧ o.rewrite.rewritten ≠ query then
    o.rewrite.rewritten
  else query

/-- The search-query list for retrieval (ask-stream.ts:520-537; the
generator's return value is always a non-empty array, so the
`if (genResult.value)` guard always adopts it). -/
def searchQueriesOf (o : Oracle) (query : String) (history : List ConvMessage) : List String :=
  generateSearchQueries (effectiveQueryOf o query history) o.expansionQueries o.expansion

/-- The merged, sorted, truncated chunk list (ask-stream.ts:551-557). -/
def chunksOf (o : Oracle) (query : String) (history : List ConvMessage) : List MergedChunk :=
  multiQuerySearch o.chunkCount ((searchQueriesOf o query history).map o.searchResults)

/-- The source-mapping step (ask-stream.ts:619-625), applied to the CRAG
filter result (`relevantChunks` when non-empty, else the full merged set,
ask-stream.ts:616).  The code reads `chunk.chunk_id` / `chunk.source_title`
off the graded chunk objects; both graded and raw chunks are modelled
uniformly by `MergedChunk`, whose `id` plays the role of `chunk_id`. -/
def toSource (c : MergedChunk) : Source :=
  ⟨c.chunk.id, c.chunk.source_id, c.chunk.source_title, c.chunk.page, c.chunk.text⟩

/-- The filtered chunk list and prepared sources (ask-stream.ts:616-625). -/
def sourcesOf (o : Oracle) (query : String) (history : List ConvMessage) : List Source :=
  (if o.crag.relevantChunks ≠ [] then o.crag.relevantChunks
   else chunksOf o query history).map toSource

/-- ask-stream.ts:560. -/
def noSourcesResponse : String :=
  "I couldn\x27t find any relevant information in your saved sources."

/-- ask-stream.ts:599. -/
def noRelevantResponse : String :=
  "I found some sources, but none of them appear to be relevant to your question. Could you try rephrasing or asking about a different topic?"

/-- The orchestrator (ask-stream.ts:434-750) past admission (auth, pocket
membership, conversation creation and user-message persistence — CRUD out of
scope), as a pure function of the collaborator results.  Status events whose
payloads interpolate runtime values, the `sources`/`rewriting` payloads, the
audit-event insert and `thinking` forwarding are elided; the claimed events
(`token`, `queries`, `grading`, `done`, `error`) and both terminal canned
answers are modelled exactly. -/
def runPipeline (o : Oracle) (query : String) (history : List ConvMessage) : PipelineResult :=
  let routingEvents := [Event.status "Analyzing query intent...", Event.routing o.router.intent]
  if o.router.skipRetrieval = true ∧ o.router.suggestedResponse ≠ "" then
    { events := routingEvents ++
        [Event.token o.router.suggestedResponse,
         Event.done o.router.suggestedResponse []],
      persistedAssistant := some o.router.suggestedResponse,
      retrievalCalls := 0, cragCalls := 0, genCalls := 0, reflectionCalls := 0 }
  else
    let searchQueries := searchQueriesOf o query history
    let baseEvents := routingEvents ++
      (if history ≠ [] ∧ o.rewrite.needsContext = true ∧ o.rewrite.rewritten ≠ query then
        [Event.rewriting] else []) ++
      [Event.status "Generating search queries...", Event.queries searchQueries]
    let chunks := chunksOf o query history
    if chunks = [] then
      { events := baseEvents ++ [Event.done noSourcesResponse []],
        persistedAssistant := some noSourcesResponse,
        retrievalCalls := searchQueries.length, cragCalls := 0, genCalls := 0,
        reflectionCalls := 0 }
    else if o.crag.decision = "no_relevant_sources" then
      { events := baseEvents ++
          [Event.status "Grading chunk relevance...", Event.grading o.crag.decision,
           Event.done noRelevantResponse []],
        persistedAssistant := some noRelevantResponse,
        retrievalCalls := searchQueries.length, cragCalls := 1, genCalls := 0,
        reflectionCalls := 0 }
    else
      let sources := sourcesOf o query history
      let preGenEvents := baseEvents ++
        [Event.status "Grading chunk relevance...", Event.grading o.crag.decision,
         Event.sources, Event.status "Generating answer..."]
      let loopRes := loopGo o (maxAnswerRetries + 1) 0
      match loopRes.result with
      | none =>
        { events := preGenEvents ++ loopRes.events ++
            [Event.error "Failed to generate response"],
          persistedAssistant := none,
          retrievalCalls := searchQueries.length, cragCalls := 1,
          genCalls := loopRes.genCalls, reflectionCalls := loopRes.reflectionCalls }
      | some (answer, _) =>
        { events := preGenEvents ++ loopRes.events ++
            [Event.done answer (extractCitations answer sources)],
          persistedAssistant := some answer,
          retrievalCalls := searchQueries.length, cragCalls := 1,
          genCalls := loopRes.genCalls, reflectionCalls := loopRes.reflectionCalls }

/-- The answer carried by the terminal `done` event, if one was emitted. -/
def doneAnswerOf (r : PipelineResult) : Option String :=
  r.events.reverse.findSome?
    (fun e => match e with | Event.done a _ => some a | _ => none)

/-- The payloads of all `token` events, in emission order. -/
def tokenPayloads (evs : List Event) : List String :=
  evs.filterMap (fun e => match e with | Event.token t => some t | _ => none)

/-- The answer produced by reflective round `r` when that round's first
generation attempt succeeds: the concatenation of its streamed deltas. -/
def roundAnswer (o : Oracle) (r : Nat) : String :=
  String.join (o.genBehavior r 0 o.primaryModel).tokens

/-- Concrete input refuting C2: the router sets `skipRetrieval` but supplies
no `suggestedResponse`, so the guard `routerResult.skipRetrieval &&
routerResult.suggestedResponse` is falsy and the pipeline proceeds to
retrieval anyway. -/
def oracleCEx2 : Oracle :=
  { router := ⟨"chit_chat", true, ""⟩,
    rewrite := ⟨"", false⟩,
    expansionQueries := 2,
    chunkCount := 5,
    expansion := none,
    searchResults := fun _ => [],
    crag := ⟨"proceed", []⟩,
    grade := ⟨false⟩,
    genBehavior := fun _ _ _ => ⟨[], true⟩,
    primaryModel := "p",
    fallbackModel := "" }

/-- Concrete input for the C2 witness: a chit-chat request with a canned
response. -/
def oracleW2 : Oracle :=
  { router := ⟨"chit_chat", true, "Hello! How can I help?"⟩,
    rewrite := ⟨"", false⟩,
    expansionQueries := 2,
    chunkCount := 5,
    expansion := none,
    searchResults := fun _ => [],
    crag := ⟨"proceed", []⟩,
    grade := ⟨false⟩,
    genBehavior := fun _ _ _ => ⟨[], true⟩,
    primaryModel := "p",
    fallbackModel := "" }

/-- Concrete generation behaviour for the C3 witness: the primary model's
attempt fails after streaming one token, the fallback attempt succeeds. -/
def behaviorW3 : Nat → String → AttemptOutcome :=
  fun attempt _ => if attempt = 0 then ⟨["x"], true⟩ else ⟨["y", "z"], false⟩

/-- Concrete input for the C4 witness: retrieval succeeds, the first
generated answer is long enough to be graded, the grade requests a retry,
and the regenerated answer differs. -/
def oracleW4 : Oracle :=
  { router := ⟨"lookup", false, ""⟩,
    rewrite := ⟨"", false⟩,
    expansionQueries := 2,
    chunkCount := 5,
    expansion := none,
    searchResults := fun _ => [⟨"c1", "s1", "Title", none, "chunk text", 1⟩],
    crag := ⟨"proceed", []⟩,
    grade := ⟨true⟩,
    genBehavior := fun round _ _ =>
      if round = 0 then
        ⟨["This first draft answer is long enough to be graded, yes."], false⟩
      else ⟨["Second draft."], false⟩,
    primaryModel := "p",
    fallbackModel := "f" }

/-- Concrete input for the C10 witness: the primary model fails mid-stream
after emitting one token, the fallback succeeds with a different token. -/
def oracleW10 : Oracle :=
  { router := ⟨"lookup", false, ""⟩,
    rewrite := ⟨"", false⟩,
    expansionQueries := 2,
    chunkCount := 5,
    expansion := none,
    searchResults := fun _ => [⟨"c1", "s1", "Title", none, "chunk text", 1⟩],
    crag := ⟨"proceed", []⟩,
    grade := ⟨false⟩,
    genBehavior := fun _ attempt model =>
      if attempt = 0 ∧ model = "p" then ⟨["a"], true⟩ else ⟨["b"], false⟩,
    primaryModel := "p",
    fallbackModel := "f" }

theorem findEntry_insertChunk (k : String) (m : List MergedChunk) (c : Chunk) :
    findEntry k (insertChunk m c) =
      if c.id = k then applyHit (findEntry k m) c else findEntry k m := by
  induction m with
  | nil =>
    by_cases h : c.id = k
    · have hb : (c.id == k) = true := beq_iff_eq.mpr h
      simp [findEntry, insertChunk, applyHit, List.find?, h, hb]
    · have hb : (c.id == k) = false := by simp [beq_iff_eq, h]
      simp [findEntry, insertChunk, applyHit, List.find?, h, hb]
  | cons e rest ih =>
    by_cases hec : e.chunk.id = c.id
    · by_cases hk : c.id = k
      · have hek : e.chunk.id = k := hec.trans hk
        have hb : (e.chunk.id == k) = true := beq_iff_eq.mpr hek
        simp [findEntry, insertChunk, applyHit, List.find?, hec, hk, hb]
      · have hek : ¬ e.chunk.id = k := fun h => hk (hec ▸ h)
        have hb : (e.chunk.id == k) = false := by simp [beq_iff_eq, hek]
        simp only [insertChunk, if_pos hec]
        simp [findEntry, List.find?, hk, hb]
    · by_cases hek : e.chunk.id = k
      · have hk : ¬ c.id = k := fun h => hec (hek.trans h.symm)
        have hb : (e.chunk.id == k) = true := beq_iff_eq.mpr hek
        simp only [insertChunk, if_neg hec]
        simp [findEntry, List.find?, hk, hb]
      · have hb : (e.chunk.id == k) = false := by simp [beq_iff_eq, hek]
        simp only [insertChunk, if_neg hec]
        have lhs : findEntry k (e :: insertChunk rest c) =
            findEntry k (insertChunk rest c) := by
          simp [findEntry, List.find?, hb]
        have rhs : findEntry k (e :: rest) = findEntry k rest := by
          simp [findEntry, List.find?, hb]
        rw [lhs, rhs, ih]

theorem findEntry_foldl (k : String) (l : List Chunk) (m : List MergedChunk) :
    findEntry k (l.foldl insertChunk m) =
      (l.filter (fun c => c.id == k)).foldl applyHit (findEntry k m) := by
  induction l generalizing m with
  | nil => simp
  | cons c rest ih =>
    by_cases h : c.id = k
    · simp only [List.foldl_cons, List.filter_cons]
      rw [ih, findEntry_insertChunk, if_pos h]
      simp [h]
    · simp only [List.foldl_cons, List.filter_cons]
      rw [ih, findEntry_insertChunk, if_neg h]
      simp [h]

theorem mergeResults_eq_foldl_flatten (perQuery : List (List Chunk)) :
    mergeResults perQuery = perQuery.flatten.foldl insertChunk [] := by
  rw [mergeResults, List.foldl_flatten]

/-- The entry the fusion map holds for a chunk id is determined by the
sequence of hits of that id across all queries, in arrival order. -/
theorem findEntry_mergeResults (k : String) (perQuery : List (List Chunk)) :
    findEntry k (mergeResults perQuery) =
      (perQuery.flatten.filter (fun c => c.id == k)).foldl applyHit none := by
  rw [mergeResults_eq_foldl_flatten, findEntry_foldl]
  rfl

theorem foldl_applyHit_some (t : List Chunk) (ch : Chunk) (q : Nat) :
    t.foldl applyHit (some ⟨ch, q⟩) =
      some ⟨{ ch with similarity := runningAverage ch.similarity (t.map Chunk.similarity) },
        q + t.length⟩ := by
  induction t generalizing ch q with
  | nil => simp [runningAverage]
  | cons c rest ih =>
    simp only [List.foldl_cons, applyHit]
    rw [ih]
    simp [runningAverage, Nat.add_assoc, Nat.add_comm 1 rest.length]

/-- C1, counterexample: a chunk surfaced by three query variants with scores
0, 0, 1 ends up with `similarity = 1/2` — not the arithmetic mean `1/3` the
claim states — because the code averages pairwise at each repeat hit
(`(existing + new) / 2`) instead of keeping a true running mean. -/
theorem c1_counterexample :
    (findEntry "c" (mergeResults
        [[⟨"c", "s", "t", none, "x", 0⟩],
         [⟨"c", "s", "t", none, "x", 0⟩],
         [⟨"c", "s", "t", none, "x", 1⟩]])).map
      (fun e => (e.chunk.similarity, e.queryCount)) = some (1/2, 3)
    ∧ ((1 : ℚ)/2) ≠ (0 + 0 + 1) / 3 := by
  constructor
  · norm_num [mergeResults, insertChunk, findEntry, List.find?]
  · norm_num

/-- C1, amended: for every chunk surfaced by k query variants, the merged
entry has `queryCount = k`, and `similarity` equal to the *iterated pairwise
average* of the k scores in arrival order (`a₁ = s₁`, `aᵢ₊₁ = (aᵢ + sᵢ₊₁)/2`),
which coincides with the arithmetic mean only for k ≤ 2. -/
theorem c1_amended (perQuery : List (List Chunk)) (k : String) (h : Chunk)
    (t : List Chunk)
    (hhits : perQuery.flatten.filter (fun c => c.id == k) = h :: t) :
    findEntry k (mergeResults perQuery) =
      some ⟨{ h with similarity := runningAverage h.similarity (t.map Chunk.similarity) },
        t.length + 1⟩ := by
  rw [findEntry_mergeResults, hhits]
  simp only [List.foldl_cons, applyHit]
  rw [foldl_applyHit_some]
  simp [Nat.add_comm]

/-- C1 witness: two hits with scores 2 and 4 merge to similarity 3 and
`queryCount` 2. -/
theorem c1_amended_witness :
    findEntry "a" (mergeResults
        [[⟨"a", "s", "t", none, "x", 2⟩], [⟨"a", "s", "t", none, "x", 4⟩]]) =
      some ⟨⟨"a", "s", "t", none, "x", 3⟩, 2⟩ := by
  rw [c1_amended
    [[⟨"a", "s", "t", none, "x", 2⟩], [⟨"a", "s", "t", none, "x", 4⟩]] "a"
    ⟨"a", "s", "t", none, "x", 2⟩ [⟨"a", "s", "t", none, "x", 4⟩] (by decide)]
  norm_num [runningAverage]

theorem filter_id_nil_or_singleton (l : List Chunk) (k : String)
    (hl : (l.map Chunk.id).Nodup) :
    l.filter (fun c => c.id == k) = [] ∨
      ∃ a, l.filter (fun c => c.id == k) = [a] ∧ a.id = k := by
  induction l with
  | nil => exact Or.inl rfl
  | cons c rest ih =>
    simp only [List.map_cons, List.nodup_cons] at hl
    obtain ⟨hni, hnd⟩ := hl
    by_cases h : c.id = k
    · right
      refine ⟨c, ?_, h⟩
      have hrest : rest.filter (fun c => c.id == k) = [] := by
        apply List.filter_eq_nil_iff.mpr
        intro a ha
        simp only [beq_iff_eq]
        intro hak
        exact hni (List.mem_map.mpr ⟨a, ha, (hak.trans h.symm)⟩)
      simp [List.filter_cons, beq_iff_eq, h, hrest]
    · rcases ih hnd with hnil | ⟨a, ha, hak⟩
      · left
        simp [List.filter_cons, beq_iff_eq, h, hnil]
      · right
        exact ⟨a, by simp [List.filter_cons, beq_iff_eq, h, ha], hak⟩

/-- C9, amended: for two queries A and B (each returning a duplicate-free
row set, as a relational search does), fusion merging is commutative on the
merged score map *before* sorting and truncation: every chunk id carries the
same `similarity` and `queryCount` for query order [A,B] as for [B,A].  The
final sorted-and-truncated list need not coincide: the stable sort preserves
the differing insertion orders, so distinct chunks that tie in similarity at
the truncation boundary can differ (see the counterexample). -/
theorem c9_amended (ra rb : List Chunk)
    (hna : (ra.map Chunk.id).Nodup) (hnb : (rb.map Chunk.id).Nodup)
    (k : String) :
    (findEntry k (mergeResults [ra, rb])).map
        (fun e => (e.chunk.similarity, e.queryCount)) =
      (findEntry k (mergeResults [rb, ra])).map
        (fun e => (e.chunk.similarity, e.queryCount)) := by
  rw [findEntry_mergeResults, findEntry_mergeResults]
  have hab : ([ra, rb] : List (List Chunk)).flatten = ra ++ rb := by simp
  have hba : ([rb, ra] : List (List Chunk)).flatten = rb ++ ra := by simp
  rw [hab, hba, List.filter_append, List.filter_append]
  rcases filter_id_nil_or_singleton ra k hna with hfa | ⟨a, hfa, _⟩ <;>
    rcases filter_id_nil_or_singleton rb k hnb with hfb | ⟨b, hfb, _⟩ <;>
      simp [hfa, hfb, applyHit, add_comm]

/-- C9 witness: two singleton result sets for distinct chunk ids x, y give
identical merged score maps in either query order. -/
theorem c9_amended_witness :
    (findEntry "x" (mergeResults
        [[⟨"x", "s", "t", none, "u", 1/2⟩], [⟨"y", "s", "t", none, "v", 1/2⟩]])).map
        (fun e => (e.chunk.similarity, e.queryCount)) =
      (findEntry "x" (mergeResults
        [[⟨"y", "s", "t", none, "v", 1/2⟩], [⟨"x", "s", "t", none, "u", 1/2⟩]])).map
        (fun e => (e.chunk.similarity, e.queryCount)) :=
  c9_amended [⟨"x", "s", "t", none, "u", 1/2⟩] [⟨"y", "s", "t", none, "v", 1/2⟩]
    (by decide) (by decide) "x"

/-- C9, counterexample to the claim as stated: with `chunkCount = 1` and two
queries each surfacing one (distinct) chunk with the same similarity 1/2,
order [A,B] returns chunk x while order [B,A] returns chunk y — the final
chunk sets differ, so the merge is not commutative through the stable
sort-and-truncate step. -/
theorem c9_counterexample :
    (multiQuerySearch 1
        [[⟨"x", "s", "t", none, "u", 1/2⟩], [⟨"y", "s", "t", none, "v", 1/2⟩]]).map
      (fun e => e.chunk.id) = ["x"]
    ∧ (multiQuerySearch 1
        [[⟨"y", "s", "t", none, "v", 1/2⟩], [⟨"x", "s", "t", none, "u", 1/2⟩]]).map
      (fun e => e.chunk.id) = ["y"]
    ∧ ("x" : String) ≠ "y" := by
  refine ⟨?_, ?_, by decide⟩ <;>
    simp [multiQuerySearch, mergeResults, insertChunk, sortBySimilarityDesc,
      insertDesc]

theorem streamChatCompletion_success (behavior : Nat → String → AttemptOutcome)
    (model fallbackModel : String) (h : (behavior 0 model).failed = false) :
    streamChatCompletion behavior model fallbackModel =
      ⟨(behavior 0 model).tokens, [(0, model)],
        some (String.join (behavior 0 model).tokens, model)⟩ := by
  simp [streamChatCompletion, maxAttempts, runAttemptsGo, h]

theorem streamChatCompletion_fallback_success
    (behavior : Nat → String → AttemptOutcome) (model fallbackModel : String)
    (h0 : (behavior 0 model).failed = true)
    (hfb : fallbackModel ≠ "") (hfm : fallbackModel ≠ model)
    (h1 : (behavior 1 fallbackModel).failed = false) :
    streamChatCompletion behavior model fallbackModel =
      ⟨(behavior 0 model).tokens ++ (behavior 1 fallbackModel).tokens,
        [(0, model), (1, fallbackModel)],
        some (String.join (behavior 1 fallbackModel).tokens, fallbackModel)⟩ := by
  simp [streamChatCompletion, maxAttempts, runAttemptsGo, h0, h1, hfb, hfm]

/-- C3: `streamChatCompletion` is a bounded retry state machine.  (i) At most
2 attempts are made.  (ii) If attempt 0 fails and a fallback model is
configured (non-empty) and distinct from the primary, exactly one model
switch occurs: the attempts made are attempt 0 on the primary and attempt 1
on the fallback.  (iii) If attempt 0 fails and no fallback applies, no
further attempt is made and the failure propagates (`result = none`).
(iv) If the switched attempt also fails, the failure propagates.  (v)/(vi) On
success the concatenated streamed deltas and the model actually used are
returned. -/
theorem c3_generation_retry (behavior : Nat → String → AttemptOutcome)
    (model fallbackModel : String) :
    (streamChatCompletion behavior model fallbackModel).calls.length ≤ 2
    ∧ ((behavior 0 model).failed = true → fallbackModel ≠ "" → fallbackModel ≠ model →
        (streamChatCompletion behavior model fallbackModel).calls =
          [(0, model), (1, fallbackModel)])
    ∧ ((behavior 0 model).failed = true → ¬ (fallbackModel ≠ "" ∧ fallbackModel ≠ model) →
        (streamChatCompletion behavior model fallbackModel).result = none
        ∧ (streamChatCompletion behavior model fallbackModel).calls = [(0, model)])
    ∧ ((behavior 0 model).failed = true → fallbackModel ≠ "" → fallbackModel ≠ model →
        (behavior 1 fallbackModel).failed = true →
        (streamChatCompletion behavior model fallbackModel).result = none)
    ∧ ((behavior 0 model).failed = false →
        (streamChatCompletion behavior model fallbackModel).result =
          some (String.join (behavior 0 model).tokens, model))
    ∧ ((behavior 0 model).failed = true → fallbackModel ≠ "" → fallbackModel ≠ model →
        (behavior 1 fallbackModel).failed = false →
        (streamChatCompletion behavior model fallbackModel).result =
          some (String.join (behavior 1 fallbackModel).tokens, fallbackModel)) := by
  refine ⟨?_, ?_, ?_, ?_, ?_, ?_⟩
  · by_cases h0 : (behavior 0 model).failed
    · by_cases hc : fallbackModel ≠ "" ∧ fallbackModel ≠ model
      · by_cases h1 : (behavior 1 fallbackModel).failed <;>
          simp [streamChatCompletion, maxAttempts, runAttemptsGo, h0, h1, hc.1, hc.2]
      · rw [not_and_or] at hc
        rcases hc with hc | hc <;> rw [not_ne_iff] at hc <;>
          simp [streamChatCompletion, maxAttempts, runAttemptsGo, h0, hc]
    · rw [Bool.not_eq_true] at h0
      simp [streamChatCompletion, maxAttempts, runAttemptsGo, h0]
  · intro h0 hfb hfm
    by_cases h1 : (behavior 1 fallbackModel).failed <;>
      simp [streamChatCompletion, maxAttempts, runAttemptsGo, h0, h1, hfb, hfm]
  · intro h0 hc
    rw [not_and_or] at hc
    rcases hc with hc | hc <;> rw [not_ne_iff] at hc <;>
      simp [streamChatCompletion, maxAttempts, runAttemptsGo, h0, hc]
  · intro h0 hfb hfm h1
    simp [streamChatCompletion, maxAttempts, runAttemptsGo, h0, h1, hfb, hfm]
  · intro h0
    rw [streamChatCompletion_success behavior model fallbackModel h0]
  · intro h0 hfb hfm h1
    rw [streamChatCompletion_fallback_success behavior model fallbackModel h0 hfb hfm h1]

/-- C3 witness: concrete failing primary and succeeding fallback. -/
theorem c3_generation_retry_witness :
    (streamChatCompletion behaviorW3 "p" "f").calls = [(0, "p"), (1, "f")]
    ∧ (streamChatCompletion behaviorW3 "p" "f").result = some ("yz", "f") := by
  have h := c3_generation_retry behaviorW3 "p" "f"
  refine ⟨h.2.1 rfl (by decide) (by decide), ?_⟩
  have hr := h.2.2.2.2.2 rfl (by decide) (by decide) rfl
  rw [hr]
  rfl

theorem tokenPayloads_append (l1 l2 : List Event) :
    tokenPayloads (l1 ++ l2) = tokenPayloads l1 ++ tokenPayloads l2 := by
  simp [tokenPayloads, List.filterMap_append]

theorem tokenPayloads_map_token (l : List String) :
    tokenPayloads (l.map Event.token) = l := by
  induction l with
  | nil => rfl
  | cons x xs ih => simpa [tokenPayloads, List.filterMap_cons] using ih

theorem findSome?_done2 (l1 l2 : List Event) (a : String) (cits : List Citation) :
    (l1 ++ (l2 ++ [Event.done a cits])).reverse.findSome?
      (fun e => match e with | Event.done x _ => some x | _ => none) = some a := by
  rw [← List.append_assoc, List.reverse_append]
  simp [List.findSome?]

/-- Reduction of the orchestrator to its generation branch: when the router
does not short-circuit, retrieval finds chunks and CRAG does not abstain,
the pipeline's generation/reflection counters, persisted message, terminal
answer and token payloads are those of the self-reflective loop. -/
theorem runPipeline_gen (o : Oracle) (query : String) (history : List ConvMessage)
    (hskip : o.router.skipRetrieval = false)
    (hchunks : chunksOf o query history ≠ [])
    (hcrag : o.crag.decision ≠ "no_relevant_sources") :
    (runPipeline o query history).genCalls = (loopGo o (maxAnswerRetries + 1) 0).genCalls
    ∧ (runPipeline o query history).reflectionCalls =
        (loopGo o (maxAnswerRetries + 1) 0).reflectionCalls
    ∧ (∀ a m, (loopGo o (maxAnswerRetries + 1) 0).result = some (a, m) →
        (runPipeline o query history).persistedAssistant = some a
        ∧ doneAnswerOf (runPipeline o query history) = some a)
    ∧ ((loopGo o (maxAnswerRetries + 1) 0).result = none →
        (runPipeline o query history).persistedAssistant = none)
    ∧ tokenPayloads (runPipeline o query history).events =
        tokenPayloads (loopGo o (maxAnswerRetries + 1) 0).events := by
  rcases hres : (loopGo o (maxAnswerRetries + 1) 0).result with _ | ⟨a, m⟩
  · refine ⟨?_, ?_, ?_, ?_, ?_⟩
    · simp [runPipeline, hskip, hchunks, hcrag, hres]
    · simp [runPipeline, hskip, hchunks, hcrag, hres]
    · intro a m h
      simp [hres] at h
    · intro _
      simp [runPipeline, hskip, hchunks, hcrag, hres]
    · simp only [runPipeline, hskip, hchunks, hcrag, hres, tokenPayloads,
        List.filterMap_append, Bool.false_eq_true, false_and, if_false,
        if_neg hchunks, if_neg hcrag]
      simp [List.filterMap_append]
      intro a _ _ _ ha
      subst ha
      rfl
  · refine ⟨?_, ?_, ?_, ?_, ?_⟩
    · simp [runPipeline, hskip, hchunks, hcrag, hres]
    · simp [runPipeline, hskip, hchunks, hcrag, hres]
    · intro a' m' h
      simp only [Option.some.injEq, Prod.mk.injEq] at h
      obtain ⟨h1, h2⟩ := h
      subst h1
      constructor
      · simp [runPipeline, hskip, hchunks, hcrag, hres]
      · simp only [runPipeline, hskip, hchunks, hcrag, hres]
        simp only [Bool.false_eq_true, false_and, if_false, if_neg hchunks,
          if_neg hcrag]
        simp [doneAnswerOf, findSome?_done2]
    · intro h
      simp at h
    · simp only [runPipeline, hskip, hchunks, hcrag, hres, tokenPayloads,
        List.filterMap_append, Bool.false_eq_true, false_and, if_false,
        if_neg hchunks, if_neg hcrag]
      simp [List.filterMap_append]
      intro a _ _ _ ha
      subst ha
      rfl

/-- C2, counterexample to the claim as stated: with `skipRetrieval = true`
but no `suggestedResponse`, the guard `routerResult.skipRetrieval &&
routerResult.suggestedResponse` is falsy, so the pipeline performs retrieval
(here: one hybrid-search call) and the terminal answer is not the (absent)
suggested response. -/
theorem c2_counterexample :
    oracleCEx2.router.skipRetrieval = true
    ∧ (runPipeline oracleCEx2 "hi" []).retrievalCalls = 1
    ∧ doneAnswerOf (runPipeline oracleCEx2 "hi" []) = some noSourcesResponse
    ∧ oracleCEx2.router.suggestedResponse ≠ noSourcesResponse := by
  refine ⟨rfl, ?_, ?_, by decide⟩
  · simp [runPipeline, oracleCEx2, searchQueriesOf, generateSearchQueries,
      chunksOf, multiQuerySearch, mergeResults, sortBySimilarityDesc,
      effectiveQueryOf]
  · simp [runPipeline, oracleCEx2, searchQueriesOf, generateSearchQueries,
      chunksOf, multiQuerySearch, mergeResults, sortBySimilarityDesc,
      effectiveQueryOf, doneAnswerOf, List.findSome?]

/-- C2, amended: for every request whose RouterResult has
`skipRetrieval = true` **and a non-empty `suggestedResponse`**, no retrieval,
grading, or generation call occurs, and the emitted `done` event's answer
equals (and the persisted assistant message is) the `suggestedResponse`. -/
theorem c2_amended (o : Oracle) (query : String) (history : List ConvMessage)
    (hskip : o.router.skipRetrieval = true)
    (hsugg : o.router.suggestedResponse ≠ "") :
    (runPipeline o query history).retrievalCalls = 0
    ∧ (runPipeline o query history).cragCalls = 0
    ∧ (runPipeline o query history).genCalls = 0
    ∧ (runPipeline o query history).reflectionCalls = 0
    ∧ doneAnswerOf (runPipeline o query history) = some o.router.suggestedResponse
    ∧ (runPipeline o query history).persistedAssistant =
        some o.router.suggestedResponse := by
  refine ⟨?_, ?_, ?_, ?_, ?_, ?_⟩ <;>
    simp [runPipeline, hskip, hsugg, doneAnswerOf, List.findSome?]

/-- C2 witness: a concrete chit-chat request with a canned response
short-circuits with zero collaborator calls. -/
theorem c2_amended_witness :
    (runPipeline oracleW2 "hello" []).retrievalCalls = 0
    ∧ (runPipeline oracleW2 "hello" []).genCalls = 0
    ∧ doneAnswerOf (runPipeline oracleW2 "hello" []) =
        some "Hello! How can I help?" := by
  have h := c2_amended oracleW2 "hello" [] rfl (by decide)
  exact ⟨h.1, h.2.2.1, h.2.2.2.2.1⟩

theorem loopGo_one_refl (o : Oracle) : (loopGo o 1 1).reflectionCalls = 0 := by
  rcases h1 : (roundGen o 1).result with _ | ⟨a, m⟩ <;> simp [loopGo, h1]

theorem loopGo_refl_le (o : Oracle) :
    (loopGo o (maxAnswerRetries + 1) 0).reflectionCalls ≤ 1 := by
  rcases h0 : (roundGen o 0).result with _ | ⟨a, m⟩
  · simp [loopGo, maxAnswerRetries, h0]
  · by_cases hlen : a.length > 50
    · by_cases hsr : o.grade.shouldRetry = true
      · rcases h1 : (roundGen o 1).result with _ | ⟨a', m'⟩ <;>
          simp [loopGo, maxAnswerRetries, h0, hlen, hsr, h1]
      · simp [loopGo, maxAnswerRetries, h0, hlen, hsr]
    · simp [loopGo, maxAnswerRetries, h0, hlen]

theorem runPipeline_refl_le (o : Oracle) (query : String)
    (history : List ConvMessage) :
    (runPipeline o query history).reflectionCalls ≤ 1 := by
  by_cases c1 : o.router.skipRetrieval = true ∧ o.router.suggestedResponse ≠ ""
  · simp [runPipeline, c1]
  · by_cases c2 : chunksOf o query history = []
    · simp [runPipeline, c1, c2]
    · by_cases c3 : o.crag.decision = "no_relevant_sources"
      · simp [runPipeline, c1, c2, c3]
      · rcases hres : (loopGo o (maxAnswerRetries + 1) 0).result with _ | ⟨a, m⟩ <;>
          simpa [runPipeline, c1, c2, c3, hres] using loopGo_refl_le o

/-- C4: self-reflective grading runs at most once per request, only after
the first generation pass and only if that answer exceeds the minimum
length (50 characters); when the grade sets `shouldRetry`, exactly one
regeneration occurs (retry budget `MAX_ANSWER_RETRIES = 1`), the regenerated
answer is not re-graded (`reflectionCalls` stays 1), and the second answer is
the one persisted and reported in the `done` event; when it does not, the
first answer is persisted and reported. -/
theorem c4_reflection (o : Oracle) (query : String) (history : List ConvMessage)
    (hskip : o.router.skipRetrieval = false)
    (hchunks : chunksOf o query history ≠ [])
    (hcrag : o.crag.decision ≠ "no_relevant_sources")
    (hgen : ∀ r, (o.genBehavior r 0 o.primaryModel).failed = false) :
    (∀ (o' : Oracle) (q' : String) (h' : List ConvMessage),
        (runPipeline o' q' h').reflectionCalls ≤ 1)
    ∧ ((roundAnswer o 0).length ≤ 50 →
        (runPipeline o query history).reflectionCalls = 0
        ∧ (runPipeline o query history).genCalls = 1
        ∧ (runPipeline o query history).persistedAssistant = some (roundAnswer o 0)
        ∧ doneAnswerOf (runPipeline o query history) = some (roundAnswer o 0))
    ∧ ((roundAnswer o 0).length > 50 →
        (runPipeline o query history).reflectionCalls = 1
        ∧ (o.grade.shouldRetry = true →
            (runPipeline o query history).genCalls = 2
            ∧ (runPipeline o query history).persistedAssistant = some (roundAnswer o 1)
            ∧ doneAnswerOf (runPipeline o query history) = some (roundAnswer o 1))
        ∧ (o.grade.shouldRetry = false →
            (runPipeline o query history).genCalls = 1
            ∧ (runPipeline o query history).persistedAssistant = some (roundAnswer o 0)
            ∧ doneAnswerOf (runPipeline o query history) = some (roundAnswer o 0))) := by
  have hr0 : roundGen o 0 =
      ⟨(o.genBehavior 0 0 o.primaryModel).tokens, [(0, o.primaryModel)],
        some (roundAnswer o 0, o.primaryModel)⟩ := by
    rw [roundGen, streamChatCompletion_success _ _ _ (hgen 0)]
    rfl
  have hr1 : roundGen o 1 =
      ⟨(o.genBehavior 1 0 o.primaryModel).tokens, [(0, o.primaryModel)],
        some (roundAnswer o 1, o.primaryModel)⟩ := by
    rw [roundGen, streamChatCompletion_success _ _ _ (hgen 1)]
    rfl
  have hrp := runPipeline_gen o query history hskip hchunks hcrag
  by_cases hlen : (roundAnswer o 0).length > 50
  · by_cases hsr : o.grade.shouldRetry = true
    · have hl : (loopGo o (maxAnswerRetries + 1) 0).result =
            some (roundAnswer o 1, o.primaryModel)
          ∧ (loopGo o (maxAnswerRetries + 1) 0).genCalls = 2
          ∧ (loopGo o (maxAnswerRetries + 1) 0).reflectionCalls = 1 := by
        refine ⟨?_, ?_, ?_⟩ <;>
          simp [loopGo, maxAnswerRetries, hr0, hr1, hlen, hsr]
      have hpd := hrp.2.2.1 _ _ hl.1
      refine ⟨fun o' q' h' => runPipeline_refl_le o' q' h',
        fun hle => absurd hlen (by omega),
        fun _ => ⟨by rw [hrp.2.1, hl.2.2],
          fun _ => ⟨by rw [hrp.1, hl.2.1], hpd.1, hpd.2⟩,
          fun hf => by simp [hf] at hsr⟩⟩
    · have hsrf : o.grade.shouldRetry = false := by
        rwa [Bool.not_eq_true] at hsr
      have hl : (loopGo o (maxAnswerRetries + 1) 0).result =
            some (roundAnswer o 0, o.primaryModel)
          ∧ (loopGo o (maxAnswerRetries + 1) 0).genCalls = 1
          ∧ (loopGo o (maxAnswerRetries + 1) 0).reflectionCalls = 1 := by
        refine ⟨?_, ?_, ?_⟩ <;>
          simp [loopGo, maxAnswerRetries, hr0, hlen, hsrf]
      have hpd := hrp.2.2.1 _ _ hl.1
      refine ⟨fun o' q' h' => runPipeline_refl_le o' q' h',
        fun hle => absurd hlen (by omega),
        fun _ => ⟨by rw [hrp.2.1, hl.2.2],
          fun ht => by simp [ht] at hsrf,
          fun _ => ⟨by rw [hrp.1, hl.2.1], hpd.1, hpd.2⟩⟩⟩
  · have hl : (loopGo o (maxAnswerRetries + 1) 0).result =
          some (roundAnswer o 0, o.primaryModel)
        ∧ (loopGo o (maxAnswerRetries + 1) 0).genCalls = 1
        ∧ (loopGo o (maxAnswerRetries + 1) 0).reflectionCalls = 0 := by
      refine ⟨?_, ?_, ?_⟩ <;>
        simp [loopGo, maxAnswerRetries, hr0, hlen]
    have hpd := hrp.2.2.1 _ _ hl.1
    refine ⟨fun o' q' h' => runPipeline_refl_le o' q' h',
      fun _ => ⟨by rw [hrp.2.1, hl.2.2], by rw [hrp.1, hl.2.1], hpd.1, hpd.2⟩,
      fun hgt => absurd hgt hlen⟩

/-- C4 witness: a long first answer graded `shouldRetry = true` leads to
exactly two generation passes, one reflection, and the second answer being
persisted and reported. -/
theorem c4_reflection_witness :
    (runPipeline oracleW4 "q" []).reflectionCalls ≤ 1
    ∧ (runPipeline oracleW4 "q" []).reflectionCalls = 1
    ∧ (runPipeline oracleW4 "q" []).genCalls = 2
    ∧ (runPipeline oracleW4 "q" []).persistedAssistant = some (roundAnswer oracleW4 1)
    ∧ doneAnswerOf (runPipeline oracleW4 "q" []) = some (roundAnswer oracleW4 1) := by
  have h := c4_reflection oracleW4 "q" [] rfl
    (by decide)
    (by decide)
    (fun r => by by_cases hr : r = 0 <;> simp [oracleW4, hr])
  have h3 := h.2.2 (by decide)
  have h4 := h3.2.1 rfl
  exact ⟨h.1 oracleW4 "q" [], h3.1, h4.1, h4.2.1, h4.2.2⟩

/-- C10 (implicit): if the first generation attempt fails mid-stream after
forwarding tokens `t0` and the fallback attempt succeeds with tokens `t1`,
the per-attempt accumulator is reset: the persisted assistant message and
the `done` event's answer are exactly the concatenation of `t1`, while the
stream carried the token payloads `t0 ++ t1` — so the done answer need not
equal the concatenation of all token event payloads (witnessed concretely by
`t0 = ["a"]`, `t1 = ["b"]`). -/
theorem c10_accumulator_reset (o : Oracle) (query : String)
    (history : List ConvMessage) (t0 t1 : List String)
    (hskip : o.router.skipRetrieval = false)
    (hchunks : chunksOf o query history ≠ [])
    (hcrag : o.crag.decision ≠ "no_relevant_sources")
    (hsr : o.grade.shouldRetry = false)
    (hg0 : o.genBehavior 0 0 o.primaryModel = ⟨t0, true⟩)
    (hfb : o.fallbackModel ≠ "") (hfm : o.fallbackModel ≠ o.primaryModel)
    (hg1 : o.genBehavior 0 1 o.fallbackModel = ⟨t1, false⟩) :
    (runPipeline o query history).persistedAssistant = some (String.join t1)
    ∧ doneAnswerOf (runPipeline o query history) = some (String.join t1)
    ∧ tokenPayloads (runPipeline o query history).events = t0 ++ t1 := by
  have hr0 : roundGen o 0 =
      ⟨t0 ++ t1, [(0, o.primaryModel), (1, o.fallbackModel)],
        some (String.join t1, o.fallbackModel)⟩ := by
    rw [roundGen, streamChatCompletion_fallback_success _ _ _
      (by rw [hg0]) hfb hfm (by rw [hg1]), hg0, hg1]
  have hrp := runPipeline_gen o query history hskip hchunks hcrag
  have hl : (loopGo o (maxAnswerRetries + 1) 0).result =
        some (String.join t1, o.fallbackModel)
      ∧ tokenPayloads (loopGo o (maxAnswerRetries + 1) 0).events = t0 ++ t1 := by
    by_cases hlen : (String.join t1).length > 50
    · refine ⟨by simp [loopGo, maxAnswerRetries, hr0, hlen, hsr], ?_⟩
      have hev : (loopGo o (maxAnswerRetries + 1) 0).events =
          ((t0 ++ t1).map Event.token) ++
            [Event.status "Verifying answer quality...", Event.reflection] := by
        simp [loopGo, maxAnswerRetries, hr0, hlen, hsr]
      rw [hev, tokenPayloads_append, tokenPayloads_map_token]
      simp [tokenPayloads]
    · refine ⟨by simp [loopGo, maxAnswerRetries, hr0, hlen, hsr], ?_⟩
      have hev : (loopGo o (maxAnswerRetries + 1) 0).events =
          (t0 ++ t1).map Event.token := by
        simp [loopGo, maxAnswerRetries, hr0, hlen, hsr]
      rw [hev, tokenPayloads_map_token]
  have hpd := hrp.2.2.1 _ _ hl.1
  exact ⟨hpd.1, hpd.2, by rw [hrp.2.2.2.2, hl.2]⟩

/-- C10 witness: with `t0 = ["a"]`, `t1 = ["b"]`, the done answer is `"b"`
while the stream carried token payloads `["a", "b"]` (concatenation
`"ab" ≠ "b"`). -/
theorem c10_accumulator_reset_witness :
    (runPipeline oracleW10 "q" []).persistedAssistant = some "b"
    ∧ tokenPayloads (runPipeline oracleW10 "q" []).events = ["a", "b"]
    ∧ ("b" : String) ≠ "ab" := by
  have h := c10_accumulator_reset oracleW10 "q" [] ["a"] ["b"] rfl
    (by decide) (by decide) rfl rfl (by decide) (by decide) rfl
  refine ⟨?_, h.2.2, by decide⟩
  have := h.1
  simpa using this

/-- C5 (code bug): the history query orders ascending and takes `limit(10)`,
so for a conversation with 11 messages it returns the ten *oldest* entries
and drops the most recent one — not "the last 10 entries" as the spec (and
the purpose of context-aware rewriting) requires. -/
theorem c5_history_first_ten :
    fetchConversationHistory true
        [⟨"user", "m0"⟩, ⟨"assistant", "m1"⟩, ⟨"user", "m2"⟩, ⟨"assistant", "m3"⟩,
         ⟨"user", "m4"⟩, ⟨"assistant", "m5"⟩, ⟨"user", "m6"⟩, ⟨"assistant", "m7"⟩,
         ⟨"user", "m8"⟩, ⟨"assistant", "m9"⟩, ⟨"user", "m10"⟩] =
      [⟨"user", "m0"⟩, ⟨"assistant", "m1"⟩, ⟨"user", "m2"⟩, ⟨"assistant", "m3"⟩,
       ⟨"user", "m4"⟩, ⟨"assistant", "m5"⟩, ⟨"user", "m6"⟩, ⟨"assistant", "m7"⟩,
       ⟨"user", "m8"⟩, ⟨"assistant", "m9"⟩]
    ∧ fetchConversationHistory true
        [⟨"user", "m0"⟩, ⟨"assistant", "m1"⟩, ⟨"user", "m2"⟩, ⟨"assistant", "m3"⟩,
         ⟨"user", "m4"⟩, ⟨"assistant", "m5"⟩, ⟨"user", "m6"⟩, ⟨"assistant", "m7"⟩,
         ⟨"user", "m8"⟩, ⟨"assistant", "m9"⟩, ⟨"user", "m10"⟩] ≠
      lastN 10
        [⟨"user", "m0"⟩, ⟨"assistant", "m1"⟩, ⟨"user", "m2"⟩, ⟨"assistant", "m3"⟩,
         ⟨"user", "m4"⟩, ⟨"assistant", "m5"⟩, ⟨"user", "m6"⟩, ⟨"assistant", "m7"⟩,
         ⟨"user", "m8"⟩, ⟨"assistant", "m9"⟩, ⟨"user", "m10"⟩] := by
  refine ⟨by decide, by decide⟩

/-- C6, counterexample: when the LLM returns the effective query itself as a
variant, the result contains it twice — the list is not deduplicated. -/
theorem c6_counterexample :
    generateSearchQueries "q" 2 (some ["q"]) = ["q", "q"]
    ∧ ¬ (generateSearchQueries "q" 2 (some ["q"])).Nodup := by
  refine ⟨rfl, by decide⟩

/-- C6, amended: the search-query list is an ordered (but **not**
deduplicated) list whose element 0 is always the effective query, with at
most `expansionQueries` LLM-generated variants appended in order; on parse
failure or a non-2xx response it degrades to the single-element list
containing only the effective query. -/
theorem c6_amended (q : String) (n : Nat) (arr : Option (List String)) :
    (generateSearchQueries q n arr).head? = some q
    ∧ (generateSearchQueries q n arr).length ≤ n + 1
    ∧ generateSearchQueries q n none = [q]
    ∧ (∀ qs, arr = some qs → generateSearchQueries q n arr = q :: qs.take n) := by
  refine ⟨?_, ?_, rfl, ?_⟩
  · cases arr <;> rfl
  · cases arr with
    | none => simp [generateSearchQueries]
    | some qs =>
      simp only [generateSearchQueries, List.length_cons]
      have := List.length_take_le n qs
      omega
  · intro qs hqs
    subst hqs
    rfl

/-- C6 witness: two variants capped to one, prefixed by the effective
query. -/
theorem c6_amended_witness :
    generateSearchQueries "a" 1 (some ["b", "c"]) = ["a", "b"] := by
  have h := (c6_amended "a" 1 (some ["b", "c"])).2.2.2 ["b", "c"] rfl
  simpa using h

theorem matchTokenCI_length :
    ∀ (w cs r : List Char), matchTokenCI w cs = some r → r.length ≤ cs.length := by
  intro w
  induction w with
  | nil =>
    intro cs r h
    cases h
    exact Nat.le_refl _
  | cons a ws ih =>
    intro cs r h
    cases cs with
    | nil => cases h
    | cons c cs' =>
      simp only [matchTokenCI] at h
      split at h
      · exact (ih cs' r h).trans (by simp)
      · cases h

theorem matchAt_length :
    ∀ (l : List Char) (n : Nat) (rest : List Char),
      matchAt l = some (n, rest) → rest.length < l.length := by
  intro l n rest h
  cases l with
  | nil => cases h
  | cons c cs =>
    simp only [matchAt] at h
    split at h
    · cases hm : matchTokenCI sourceWord cs with
      | none => rw [hm] at h; cases h
      | some r1 =>
        rw [hm] at h
        simp only at h
        have hr1 : r1.length ≤ cs.length := matchTokenCI_length _ _ _ hm
        have hr2 : (r1.dropWhile jsSpace).length ≤ r1.length :=
          (List.dropWhile_sublist _).length_le
        have hr3 : ((r1.dropWhile jsSpace).dropWhile Char.isDigit).length ≤
            (r1.dropWhile jsSpace).length := (List.dropWhile_sublist _).length_le
        split at h
        · rename_i r4 heq
          split at h
          · cases h
          · injection h with h1
            injection h1 with h1a h1b
            subst h1b
            have hr4 : ((r1.dropWhile jsSpace).dropWhile Char.isDigit).length =
                r4.length + 1 := by
              rw [heq]
              rfl
            simp only [List.length_cons]
            omega
        · cases h
    · cases h

theorem scanGo_nil (fuel : Nat) : scanGo fuel [] = [] := by
  cases fuel <;> rfl

/-- Fuel sufficiency: since every successful `matchAt` consumes at least one
character, `scanGo` is fuel-irrelevant once the fuel covers the input
length; in particular `scanMarkers` computes the full scan. -/
theorem scanGo_eq_scanMarkers (fuel : Nat) :
    ∀ l : List Char, l.length ≤ fuel → scanGo fuel l = scanMarkers l := by
  induction fuel using Nat.strong_induction_on with
  | _ fuel ih =>
    intro l hl
    cases fuel with
    | zero =>
      cases l with
      | nil => rfl
      | cons c cs => simp at hl
    | succ fuel =>
      cases l with
      | nil => rw [scanGo_nil, scanMarkers, scanGo_nil]
      | cons c cs =>
        rw [scanMarkers]
        simp only [List.length_cons]
        rw [scanGo, scanGo]
        have hlc : cs.length + 1 ≤ fuel + 1 := by simpa using hl
        cases hm : matchAt (c :: cs) with
        | none =>
          have h1 : scanGo fuel cs = scanMarkers cs :=
            ih fuel (Nat.lt_succ_self fuel) cs (by omega)
          have h2 : scanGo cs.length cs = scanMarkers cs :=
            ih cs.length (by omega) cs (Nat.le_refl _)
          simp only [hm]
          rw [h1, h2]
        | some x =>
          have hx : x.2.length < cs.length + 1 := by
            have := matchAt_length (c :: cs) x.1 x.2 (by rw [hm])
            simpa using this
          have h1 : scanGo fuel x.2 = scanMarkers x.2 :=
            ih fuel (Nat.lt_succ_self fuel) x.2 (by omega)
          have h2 : scanGo cs.length x.2 = scanMarkers x.2 :=
            ih cs.length (by omega) x.2 (by omega)
          simp only [hm]
          rw [h1, h2]

theorem citeLoop_eq_spec (sources : List Source) (markers : List Nat)
    (cited : List Nat) :
    citeLoop sources markers cited =
      (dedupKeepFirstGo cited (markers.filterMap
        (fun n => if 1 ≤ n ∧ n - 1 < sources.length then some (n - 1) else none))).filterMap
        (fun i => (sources.get? i).map mkCitation) := by
  induction markers generalizing cited with
  | nil => simp [citeLoop, dedupKeepFirstGo]
  | cons n rest ih =>
    by_cases hr : 1 ≤ n ∧ n - 1 < sources.length
    · by_cases hc : (n - 1) ∈ cited
      · have hcond : ¬ (1 ≤ n ∧ n - 1 < sources.length ∧ (n - 1) ∉ cited) := by
          intro h
          exact h.2.2 hc
        simp only [citeLoop, dif_neg hcond]
        rw [ih]
        simp [List.filterMap_cons, hr, dedupKeepFirstGo, hc]
      · have hcond : 1 ≤ n ∧ n - 1 < sources.length ∧ (n - 1) ∉ cited :=
          ⟨hr.1, hr.2, hc⟩
        simp only [citeLoop, dif_pos hcond]
        rw [ih]
        simp [List.filterMap_cons, hr, dedupKeepFirstGo, hc,
          List.get?_eq_get hr.2]
    · have hcond : ¬ (1 ≤ n ∧ n - 1 < sources.length ∧ (n - 1) ∉ cited) := by
        intro h
        exact hr ⟨h.1, h.2.1⟩
      simp only [citeLoop, dif_neg hcond]
      rw [ih]
      simp [List.filterMap_cons, hr]

/-- C7: citation extraction scans the answer for every 1-based `[Source N]`
marker, keeps exactly the in-range indices deduplicated with the first
occurrence winning (the refinement equation against the spec-side
description), and silently ignores out-of-range indices; in particular, for
an answer citing sources 1 and 3 with only two sources, only index 1 yields
a citation. -/
theorem c7_citations :
    (∀ answer sources, extractCitations answer sources = specCitations answer sources)
    ∧ (∀ s1 s2 : Source,
        extractCitations "According to [Source 1] and [Source 3]." [s1, s2] =
          [mkCitation s1]) := by
  constructor
  · intro answer sources
    rw [extractCitations, specCitations, specCitedIndices]
    exact citeLoop_eq_spec sources (scanMarkers answer.data) []
  · intro s1 s2
    have hscan : scanMarkers ("According to [Source 1] and [Source 3].".data) =
        [1, 3] := by decide
    rw [extractCitations, hscan]
    simp [citeLoop]

theorem mem_citeLoop (sources : List Source) (markers : List Nat)
    (cited : List Nat) (c : Citation) (hc : c ∈ citeLoop sources markers cited) :
    ∃ s, c = mkCitation s := by
  induction markers generalizing cited with
  | nil => simp [citeLoop] at hc
  | cons n rest ih =>
    rw [citeLoop] at hc
    split at hc
    · rcases List.mem_cons.mp hc with h1 | h2
      · exact ⟨_, h1⟩
      · exact ih _ h2
    · exact ih _ hc

set_option maxRecDepth 8000 in
/-- C8, counterexample: a cited source whose chunk text has 200 characters
yields a snippet of 203 characters (`substring(0, 200) + '...'`), not at
most 200 as claimed. -/
theorem c8_counterexample :
    (extractCitations "[Source 1]"
        [⟨"c1", "s1", "T", none, String.mk (List.replicate 200 'a')⟩]).map
      (fun c => c.snippet.length) = [203]
    ∧ ¬ (203 ≤ 200) := by
  refine ⟨by decide, by decide⟩

/-- C8, amended: every citation's snippet has at most 203 characters — the
first at-most-200 characters of the chunk text plus the fixed three-character
`...` suffix. -/
theorem c8_snippet_bound (answer : String) (sources : List Source)
    (c : Citation) (hc : c ∈ extractCitations answer sources) :
    c.snippet.length ≤ 203 := by
  obtain ⟨s, rfl⟩ := mem_citeLoop sources (scanMarkers answer.data) [] c hc
  show (jsSubstring200 s.text ++ "...").length ≤ 203
  rw [String.length_append]
  have h1 : (jsSubstring200 s.text).length ≤ 200 := by
    show (String.mk (s.text.data.take 200)).length ≤ 200
    exact List.length_take_le 200 s.text.data
  have h2 : ("..." : String).length = 3 := rfl
  omega

/-- C8 witness: a concrete extraction whose single snippet is within the 203
bound. -/
theorem c8_snippet_bound_witness :
    (mkCitation ⟨"c1", "s1", "T", none, "hello"⟩).snippet.length ≤ 203 :=
  c8_snippet_bound "[Source 1]" [⟨"c1", "s1", "T", none, "hello"⟩]
    (mkCitation ⟨"c1", "s1", "T", none, "hello"⟩) (by decide)

end Vedha
